import Mathlib

/-!
Verification of the marzban metrics exporter (src/src/api.py, src/src/exporter.py).

The exporter authenticates once against a control-plane API, then on each
scrape fetches five JSON resources and maps them into Prometheus metric
families.  We shallowly embed the translation pipeline:

* JSON scalar values are `JVal` (booleans, exact rational numbers, strings,
  null); JSON objects are association lists `Obj`.  The code only ever reads
  scalar fields from objects with `dict.get(key, default)`, which `jget`
  models.  The two list-bearing wrapper keys (`"usages"` in the /nodes/usage
  response, `"users"` in the /users response) are the only non-scalar values
  the code reads; we carry them as `Option (List Obj)` in the fetch-result
  record, `none` meaning the wrapper key is absent (then `.get(k, [])`
  yields `[]`).
* The collector's metric families (`self.metrics` in
  `PrometheusCollector.__init__`) are a `MetricsState`: one list of samples
  per family, created once and mutated in place by `collect`.  Crucially the
  families are NOT recreated per call — `collect` appends to them, exactly
  as `GaugeMetricFamily.add_metric` does on the family objects built in
  `__init__`.
* Fetch failures (`httpx` non-2xx or transport errors re-raised by
  `MarzbanAPI._fetch`) abort the scrape at the point they occur; `collect`
  returns the list of endpoints fetched so far, the (mutated) state, and the
  propagated error if any.
-/

/-- JSON scalar values as consumed by the exporter's field accesses. -/
inductive JVal where
  | jnull
  | jbool (b : Bool)
  | jnum (q : Rat)
  | jstr (s : String)
deriving Repr, DecidableEq, Inhabited

/-- A JSON object: association list from keys to scalar values (the code only
reads scalar fields via `.get`). -/
abbrev Obj := List (String × JVal)

/-- First binding of key `k` in object `o` (Python dicts have unique keys). -/
def lookupKey (o : Obj) (k : String) : Option JVal :=
  match o with
  | [] => none
  | (k2, v) :: rest => if k2 = k then some v else lookupKey rest k

/-- Python `o.get(k, d)`: the value at `k`, or the default `d` when absent.
Never raises. -/
def jget (o : Obj) (k : String) (d : JVal) : JVal :=
  (lookupKey o k).getD d

/-- Python `str()` on the scalar values the code passes to labels.  The
non-integer-number case is a modelling approximation (Python renders floats
differently from `Rat`); no claim exercises it. -/
def pyStr : JVal → String
  | .jnull => "None"
  | .jbool b => if b then "True" else "False"
  | .jnum q => if q.den = 1 then toString q.num else toString q
  | .jstr s => s

/-- Python `int()` on a scalar: booleans map to 0/1, numbers truncate toward
zero, numeric strings parse, anything else raises (`none`). -/
def pyInt? : JVal → Option Int
  | .jbool b => some (if b then 1 else 0)
  | .jnum q => some (q.num.tdiv q.den)
  | .jstr s => s.toInt?
  | .jnull => none

/-- One Prometheus sample: the label values passed to `add_metric` (the code
sometimes passes raw JSON values, sometimes `str(...)`-rendered ones) and the
sample value (passed through unconverted by `add_metric`). -/
structure Sample where
  labels : List JVal
  value : JVal
deriving Repr, DecidableEq

/-- The fifteen metric families built once in `PrometheusCollector.__init__`
(the `self.metrics` dict), each holding its accumulated samples.  Field names
follow the dict keys in the source; `node_address` is the family named
`node_info`, `user_traffic` the family named
`user_lifetime_used_traffic_bytes`. -/
structure MetricsState where
  node_usage_coefficient : List Sample
  node_address : List Sample
  node_uplink : List Sample
  node_downlink : List Sample
  system_version : List Sample
  system_mem_total : List Sample
  system_mem_used : List Sample
  system_cpu_usage : List Sample
  system_total_users : List Sample
  system_active_users : List Sample
  system_incoming_bandwidth : List Sample
  system_outgoing_bandwidth : List Sample
  core_started : List Sample
  total_users : List Sample
  user_traffic : List Sample
deriving Repr, DecidableEq

/-- The state right after `PrometheusCollector.__init__`: every family
exists, with no samples yet. -/
def emptyMetrics : MetricsState :=
  ⟨[], [], [], [], [], [], [], [], [], [], [], [], [], [], []⟩

/-- The error raised by `MarzbanAPI._fetch`:
`Exception(f"Error fetching data from (endpoint): (e)")` — it carries the
resource path and the underlying cause in its message. -/
structure FetchError where
  endpoint : String
  cause : String
deriving Repr, DecidableEq

/-- An error that can abort a scrape: a propagated fetch error, or the
`TypeError` that `int()` would raise in `_collect_core_metrics` on a
non-convertible `started` value. -/
inductive ScrapeErr where
  | fetch (e : FetchError)
  | typeError (msg : String)
deriving Repr, DecidableEq

/-- `PrometheusCollector._collect_nodes_metrics` body after the fetch: for
each node append one `node_usage_coefficient` sample (raw `name` value as
label, raw `usage_coefficient` value, defaults `"unknown"` / `0`) and one
`node_info` sample (six `str()`-rendered labels, constant value 1). -/
def collectNodesMetrics (st : MetricsState) (nodes : List Obj) : MetricsState :=
  { st with
    node_usage_coefficient := st.node_usage_coefficient ++ nodes.map (fun node =>
      ⟨[jget node "name" (.jstr "unknown")], jget node "usage_coefficient" (.jnum 0)⟩),
    node_address := st.node_address ++ nodes.map (fun node =>
      ⟨[ .jstr (pyStr (jget node "name" (.jstr "unknown"))),
         .jstr (pyStr (jget node "address" (.jstr "unknown"))),
         .jstr (pyStr (jget node "port" (.jstr "unknown"))),
         .jstr (pyStr (jget node "api_port" (.jstr "unknown"))),
         .jstr (pyStr (jget node "xray_version" (.jstr "unknown"))),
         .jstr (pyStr (jget node "status" (.jstr "unknown"))) ], .jnum 1⟩) }

/-- `PrometheusCollector._collect_nodes_usage_metrics` body after the fetch:
`usage_data.get("usages", [])` (`none` = wrapper key absent), then per record
one `node_uplink_bytes` and one `node_downlink_bytes` sample. -/
def collectNodesUsageMetrics (st : MetricsState) (usages : Option (List Obj)) :
    MetricsState :=
  let us := usages.getD []
  { st with
    node_uplink := st.node_uplink ++ us.map (fun usage =>
      ⟨[jget usage "node_name" (.jstr "unknown")], jget usage "uplink" (.jnum 0)⟩),
    node_downlink := st.node_downlink ++ us.map (fun usage =>
      ⟨[jget usage "node_name" (.jstr "unknown")], jget usage "downlink" (.jnum 0)⟩) }

/-- `PrometheusCollector._collect_system_metrics` body after the fetch: one
sample per system family; `system_version` is the constant 1, the rest read
their field with default 0. -/
def collectSystemMetrics (st : MetricsState) (system_data : Obj) : MetricsState :=
  { st with
    system_version := st.system_version ++ [⟨[], .jnum 1⟩],
    system_mem_total := st.system_mem_total ++
      [⟨[], jget system_data "mem_total" (.jnum 0)⟩],
    system_mem_used := st.system_mem_used ++
      [⟨[], jget system_data "mem_used" (.jnum 0)⟩],
    system_cpu_usage := st.system_cpu_usage ++
      [⟨[], jget system_data "cpu_usage" (.jnum 0)⟩],
    system_total_users := st.system_total_users ++
      [⟨[], jget system_data "total_user" (.jnum 0)⟩],
    system_active_users := st.system_active_users ++
      [⟨[], jget system_data "users_active" (.jnum 0)⟩],
    system_incoming_bandwidth := st.system_incoming_bandwidth ++
      [⟨[], jget system_data "incoming_bandwidth" (.jnum 0)⟩],
    system_outgoing_bandwidth := st.system_outgoing_bandwidth ++
      [⟨[], jget system_data "outgoing_bandwidth" (.jnum 0)⟩] }

/-- `PrometheusCollector._collect_core_metrics` body after the fetch:
`int(core_data.get("started", False))`, appended as the `core_started`
sample; `int()` raises on a non-convertible value. -/
def collectCoreMetrics (st : MetricsState) (core_data : Obj) :
    Except ScrapeErr MetricsState :=
  match pyInt? (jget core_data "started" (.jbool false)) with
  | some n => .ok { st with core_started := st.core_started ++ [⟨[], .jnum n⟩] }
  | none => .error (.typeError "int() argument is not convertible")

/-- `PrometheusCollector._collect_users_metrics` body after the fetch:
`users_data.get("users", [])` (`none` = wrapper key absent), one
`total_users` sample holding the list length, then per user one
`user_lifetime_used_traffic_bytes` sample. -/
def collectUsersMetrics (st : MetricsState) (users_data : Option (List Obj)) :
    MetricsState :=
  let users := users_data.getD []
  { st with
    total_users := st.total_users ++ [⟨[], .jnum (users.length : Rat)⟩],
    user_traffic := st.user_traffic ++ users.map (fun user =>
      ⟨[jget user "username" (.jstr "unknown")],
        jget user "lifetime_used_traffic" (.jnum 0)⟩) }

/-- Equality of fetch outcomes is decidable (needed to evaluate the model on
concrete inputs). -/
instance {ε α : Type} [DecidableEq ε] [DecidableEq α] : DecidableEq (Except ε α) := fun
  | .error e1, .error e2 =>
    if h : e1 = e2 then isTrue (by rw [h]) else isFalse (fun hh => by cases hh; exact h rfl)
  | .error _, .ok _ => isFalse (fun hh => by cases hh)
  | .ok _, .error _ => isFalse (fun hh => by cases hh)
  | .ok a1, .ok a2 =>
    if h : a1 = a2 then isTrue (by rw [h]) else isFalse (fun hh => by cases hh; exact h rfl)

/-- The outcomes of the five upstream fetches consumed by one `collect` call,
in the shapes the code reads them: `/nodes` is a JSON array of objects,
`/system` and `/core` are objects, and from `/nodes/usage` and `/users` the
code reads only the `"usages"` / `"users"` wrapper keys (`none` = absent). -/
structure Upstream where
  nodesResp : Except FetchError (List Obj)
  nodesUsageResp : Except FetchError (Option (List Obj))
  systemResp : Except FetchError Obj
  coreResp : Except FetchError Obj
  usersResp : Except FetchError (Option (List Obj))
deriving Repr, DecidableEq

/-- Result of one `PrometheusCollector.collect` call: the endpoints fetched
(in order), the collector state after the call (mutations persist even when
an error aborts the scrape, because the families live in `self.metrics`),
and the propagated error, `none` meaning the scrape succeeded and the
families in `state` were yielded to the serializer. -/
structure CollectResult where
  log : List String
  state : MetricsState
  err : Option ScrapeErr
deriving Repr, DecidableEq

/-- `PrometheusCollector.collect`: runs the five `_collect_*` methods in
order; each first fetches its resource, then appends samples to the shared
families.  A failed fetch (or the core `int()` raise) propagates at once:
later fetches do not happen, earlier appends stay in `state`. -/
def collect (st : MetricsState) (up : Upstream) : CollectResult :=
  match up.nodesResp with
  | .error e => ⟨["/nodes"], st, some (.fetch e)⟩
  | .ok nodes =>
    let st1 := collectNodesMetrics st nodes
    match up.nodesUsageResp with
    | .error e => ⟨["/nodes", "/nodes/usage"], st1, some (.fetch e)⟩
    | .ok usages =>
      let st2 := collectNodesUsageMetrics st1 usages
      match up.systemResp with
      | .error e => ⟨["/nodes", "/nodes/usage", "/system"], st2, some (.fetch e)⟩
      | .ok system_data =>
        let st3 := collectSystemMetrics st2 system_data
        match up.coreResp with
        | .error e =>
          ⟨["/nodes", "/nodes/usage", "/system", "/core"], st3, some (.fetch e)⟩
        | .ok core_data =>
          match collectCoreMetrics st3 core_data with
          | .error e =>
            ⟨["/nodes", "/nodes/usage", "/system", "/core"], st3, some e⟩
          | .ok st4 =>
            match up.usersResp with
            | .error e =>
              ⟨["/nodes", "/nodes/usage", "/system", "/core", "/users"], st4,
                some (.fetch e)⟩
            | .ok users_data =>
              ⟨["/nodes", "/nodes/usage", "/system", "/core", "/users"],
                collectUsersMetrics st4 users_data, none⟩

/-- The five resource paths, in the order `collect` fetches them. -/
def endpoints : List String :=
  ["/nodes", "/nodes/usage", "/system", "/core", "/users"]

/-! ## Upstream client: `MarzbanAPI._fetch` and `MarzbanAPI._get_token` -/

/-- What the network does for one GET request: either a complete HTTP
response (status plus already-parsed body of type `α`) or a transport-level
failure (`httpx` raises). -/
inductive HttpOutcome (α : Type) where
  | resp (status : Nat) (body : α)
  | transport (msg : String)

/-- The cause string of the `httpx.HTTPStatusError` raised by
`raise_for_status` on a non-2xx response. -/
def statusErrMsg (status : Nat) : String :=
  "HTTP status error " ++ toString status

/-- One `MarzbanAPI._fetch` invocation: the GET requests it issued and the
outcome (parsed body, or the raised fetch error). -/
structure FetchCall (α : Type) where
  requests : List String
  result : Except FetchError α

/-- `MarzbanAPI._fetch(endpoint)`: issues exactly one authenticated GET;
`raise_for_status` raises on any status outside 200-299; both that and a
transport error are re-raised as an exception carrying the endpoint and the
cause.  No retry. -/
def fetchResource {α : Type} (net : String → HttpOutcome α) (endpoint : String) :
    FetchCall α :=
  { requests := [endpoint],
    result :=
      match net endpoint with
      | .transport msg => .error ⟨endpoint, msg⟩
      | .resp status body =>
        if 200 ≤ status ∧ status < 300 then .ok body
        else .error ⟨endpoint, statusErrMsg status⟩ }

/-- The five typed fetch wrappers dispatch `_fetch` on the fixed paths. -/
def fetch_nodes_data {α : Type} (net : String → HttpOutcome α) : FetchCall α :=
  fetchResource net "/nodes"

def fetch_nodes_usage_data {α : Type} (net : String → HttpOutcome α) : FetchCall α :=
  fetchResource net "/nodes/usage"

def fetch_system_data {α : Type} (net : String → HttpOutcome α) : FetchCall α :=
  fetchResource net "/system"

def fetch_core_data {α : Type} (net : String → HttpOutcome α) : FetchCall α :=
  fetchResource net "/core"

def fetch_users_data {α : Type} (net : String → HttpOutcome α) : FetchCall α :=
  fetchResource net "/users"

/-- Outcome of the startup `POST /admin/token` credential exchange: either a
completed response whose JSON body is `body` (the code never checks the
status of this response), or an `httpx` error raised by `post` itself. -/
inductive TokenOutcome where
  | resp (body : Obj)
  | httpError (msg : String)
deriving Repr, DecidableEq

/-- `MarzbanAPI._get_token`: reads `["access_token"]` from the response body
(a missing key raises `KeyError`); an `httpx` error from `post` propagates
(the `except httpx.HTTPStatusError` clause merely re-raises).  Any error
escapes the constructor. -/
def getToken (out : TokenOutcome) : Except String JVal :=
  match out with
  | .httpError msg => .error msg
  | .resp body =>
    match lookupKey body "access_token" with
    | some tok => .ok tok
    | none => .error "KeyError: access_token"

/-- The running process after a successful startup: `MarzbanAPI.__init__`
stored the token, the collector and HTTP route exist.  Constructing this is
the only way the exporter ever answers `/metrics`. -/
structure ServerState where
  token : JVal
deriving Repr, DecidableEq

/-- Process startup (`exporter.py` import time): constructs the collector,
whose `MarzbanAPI` collaborator acquires the token in its constructor; if
`_get_token` raises, the import fails and no server exists. -/
def startServer (out : TokenOutcome) : Except String ServerState :=
  match getToken out with
  | .ok tok => .ok ⟨tok⟩
  | .error e => .error e

/-- `GET /metrics` on a running server: serializes the families `collect`
yields; `some` output only when the scrape succeeded. -/
def serveMetrics (_srv : ServerState) (st : MetricsState) (up : Upstream) :
    Option MetricsState :=
  let r := collect st up
  match r.err with
  | none => some r.state
  | some _ => none

/-! ## Concrete fixtures (the spec's test vector, section 8) -/

def nodeN1 : Obj :=
  [("name", .jstr "n1"), ("usage_coefficient", .jnum (mkRat 5 2)),
   ("address", .jstr "1.2.3.4"), ("port", .jnum 443), ("api_port", .jnum 62050),
   ("xray_version", .jstr "1.8"), ("status", .jstr "connected")]

def usageN1 : Obj :=
  [("node_name", .jstr "n1"), ("uplink", .jnum 100), ("downlink", .jnum 200)]

def systemFixture : Obj :=
  [("mem_total", .jnum 1000), ("mem_used", .jnum 500), ("cpu_usage", .jnum 10),
   ("total_user", .jnum 5), ("users_active", .jnum 3),
   ("incoming_bandwidth", .jnum 700), ("outgoing_bandwidth", .jnum 300)]

def coreFixture : Obj := [("started", .jbool true)]

def userAlice : Obj :=
  [("username", .jstr "alice"), ("lifetime_used_traffic", .jnum 12345)]

/-- The spec's fixture as the five fetch outcomes, all successful. -/
def fixtureUp : Upstream :=
  ⟨.ok [nodeN1], .ok (some [usageN1]), .ok systemFixture, .ok coreFixture,
   .ok (some [userAlice])⟩

/-- A five-way-successful upstream with no entities at all. -/
def emptyOkUp : Upstream :=
  ⟨.ok [], .ok none, .ok [], .ok [], .ok none⟩

/-- The fixture with the second fetch (`/nodes/usage`) failing. -/
def usageFailsUp : Upstream :=
  ⟨.ok [nodeN1], .error ⟨"/nodes/usage", "boom"⟩, .ok systemFixture,
   .ok coreFixture, .ok (some [userAlice])⟩

/-! ## Helper lemmas -/

/-- `o.get(k, d)` returns the default when the key is absent. -/
theorem jget_of_absent {o : Obj} {k : String} {d : JVal}
    (h : lookupKey o k = none) : jget o k d = d := by
  simp [jget, h]

/-- A node record carrying only `name` — every other optional field absent. -/
def nodeOnlyName : Obj := [("name", .jstr "n2")]

/-- A user record carrying only `lifetime_used_traffic` — `username` absent. -/
def userNoName : Obj := [("lifetime_used_traffic", .jnum 7)]

/-! ## Claims -/

/-- C1: the claim asserts that every `collect` invocation yields exactly one
`system_version` / `core_started` / `total_users` sample and per-entity
counts for the other families.  This holds for the FIRST invocation (first
block of conjuncts) but fails from the second one on: the families live in
`self.metrics`, created once in `__init__`, and `add_metric` appends, so the
second scrape on the very same fixture serves two samples per singleton
family.  The metric set is not rebuilt per scrape. -/
theorem collect_accumulates_across_scrapes :
    ((collect emptyMetrics fixtureUp).err = none ∧
     (collect emptyMetrics fixtureUp).state.system_version.length = 1 ∧
     (collect emptyMetrics fixtureUp).state.core_started.length = 1 ∧
     (collect emptyMetrics fixtureUp).state.total_users.length = 1 ∧
     (collect emptyMetrics fixtureUp).state.node_usage_coefficient.length = 1 ∧
     (collect emptyMetrics fixtureUp).state.node_address.length = 1 ∧
     (collect emptyMetrics fixtureUp).state.node_uplink.length = 1 ∧
     (collect emptyMetrics fixtureUp).state.node_downlink.length = 1 ∧
     (collect emptyMetrics fixtureUp).state.user_traffic.length = 1) ∧
    ((collect (collect emptyMetrics fixtureUp).state fixtureUp).err = none ∧
     (collect (collect emptyMetrics fixtureUp).state fixtureUp).state.system_version.length = 2 ∧
     (collect (collect emptyMetrics fixtureUp).state fixtureUp).state.core_started.length = 2 ∧
     (collect (collect emptyMetrics fixtureUp).state fixtureUp).state.total_users.length = 2) := by
  decide

/-- C2: when the `/nodes/usage` fetch fails, the error does propagate and the
scrape yields nothing — but the collector's state is NOT unchanged: the
samples appended by the already-completed `/nodes` step stay in the
persistent families, and the next successful scrape serves them (two
`node_usage_coefficient` samples after one aborted and one successful
scrape). -/
theorem collect_abort_leaves_samples :
    (collect emptyMetrics usageFailsUp).err =
      some (.fetch ⟨"/nodes/usage", "boom"⟩) ∧
    (collect emptyMetrics usageFailsUp).state ≠ emptyMetrics ∧
    (collect emptyMetrics usageFailsUp).state.node_usage_coefficient =
      [⟨[.jstr "n1"], .jnum (mkRat 5 2)⟩] ∧
    (collect (collect emptyMetrics usageFailsUp).state fixtureUp).err = none ∧
    (collect (collect emptyMetrics usageFailsUp).state
      fixtureUp).state.node_usage_coefficient.length = 2 := by
  decide

/-- C3: on the spec's fixed fixture the scrape succeeds and the metric set
holds exactly the expected samples: `node_usage_coefficient` labelled `n1`
with value 5/2 = 2.5, `node_uplink_bytes` labelled `n1` with value 100,
`system_cpu_usage_percent` 10, `core_started` 1, `total_users` 1, and
`user_lifetime_used_traffic_bytes` labelled `alice` with value 12345. -/
theorem fixture_expected_samples :
    (collect emptyMetrics fixtureUp).err = none ∧
    (collect emptyMetrics fixtureUp).state.node_usage_coefficient =
      [⟨[.jstr "n1"], .jnum (mkRat 5 2)⟩] ∧
    (collect emptyMetrics fixtureUp).state.node_uplink =
      [⟨[.jstr "n1"], .jnum 100⟩] ∧
    (collect emptyMetrics fixtureUp).state.system_cpu_usage = [⟨[], .jnum 10⟩] ∧
    (collect emptyMetrics fixtureUp).state.core_started = [⟨[], .jnum 1⟩] ∧
    (collect emptyMetrics fixtureUp).state.total_users = [⟨[], .jnum 1⟩] ∧
    (collect emptyMetrics fixtureUp).state.user_traffic =
      [⟨[.jstr "alice"], .jnum 12345⟩] := by
  decide

/-- C4: for every record missing an optional field — any record, at any
position of any entity list, the other fields arbitrary — the translator
still emits that record's sample, with value 0 for a missing numeric field
and the label `"unknown"` for a missing label field; and no missing optional
field ever raises (the per-record steps are total, and the one fallible
read, `int()` on `started` in the core step, succeeds on the `False`
default, so the whole scrape succeeds). One conjunct per optional field of
the node / node-usage / system / core / user records. -/
theorem missing_fields_default (st : MetricsState) :
    (∀ nodes node, node ∈ nodes → lookupKey node "name" = none →
      Sample.mk [.jstr "unknown"] (jget node "usage_coefficient" (.jnum 0)) ∈
        (collectNodesMetrics st nodes).node_usage_coefficient) ∧
    (∀ nodes node, node ∈ nodes → lookupKey node "name" = none →
      Sample.mk
        [.jstr "unknown",
         .jstr (pyStr (jget node "address" (.jstr "unknown"))),
         .jstr (pyStr (jget node "port" (.jstr "unknown"))),
         .jstr (pyStr (jget node "api_port" (.jstr "unknown"))),
         .jstr (pyStr (jget node "xray_version" (.jstr "unknown"))),
         .jstr (pyStr (jget node "status" (.jstr "unknown")))] (.jnum 1) ∈
        (collectNodesMetrics st nodes).node_address) ∧
    (∀ nodes node, node ∈ nodes → lookupKey node "usage_coefficient" = none →
      Sample.mk [jget node "name" (.jstr "unknown")] (.jnum 0) ∈
        (collectNodesMetrics st nodes).node_usage_coefficient) ∧
    (∀ nodes node, node ∈ nodes → lookupKey node "address" = none →
      Sample.mk
        [.jstr (pyStr (jget node "name" (.jstr "unknown"))),
         .jstr "unknown",
         .jstr (pyStr (jget node "port" (.jstr "unknown"))),
         .jstr (pyStr (jget node "api_port" (.jstr "unknown"))),
         .jstr (pyStr (jget node "xray_version" (.jstr "unknown"))),
         .jstr (pyStr (jget node "status" (.jstr "unknown")))] (.jnum 1) ∈
        (collectNodesMetrics st nodes).node_address) ∧
    (∀ nodes node, node ∈ nodes → lookupKey node "port" = none →
      Sample.mk
        [.jstr (pyStr (jget node "name" (.jstr "unknown"))),
         .jstr (pyStr (jget node "address" (.jstr "unknown"))),
         .jstr "unknown",
         .jstr (pyStr (jget node "api_port" (.jstr "unknown"))),
         .jstr (pyStr (jget node "xray_version" (.jstr "unknown"))),
         .jstr (pyStr (jget node "status" (.jstr "unknown")))] (.jnum 1) ∈
        (collectNodesMetrics st nodes).node_address) ∧
    (∀ nodes node, node ∈ nodes → lookupKey node "api_port" = none →
      Sample.mk
        [.jstr (pyStr (jget node "name" (.jstr "unknown"))),
         .jstr (pyStr (jget node "address" (.jstr "unknown"))),
         .jstr (pyStr (jget node "port" (.jstr "unknown"))),
         .jstr "unknown",
         .jstr (pyStr (jget node "xray_version" (.jstr "unknown"))),
         .jstr (pyStr (jget node "status" (.jstr "unknown")))] (.jnum 1) ∈
        (collectNodesMetrics st nodes).node_address) ∧
    (∀ nodes node, node ∈ nodes → lookupKey node "xray_version" = none →
      Sample.mk
        [.jstr (pyStr (jget node "name" (.jstr "unknown"))),
         .jstr (pyStr (jget node "address" (.jstr "unknown"))),
         .jstr (pyStr (jget node "port" (.jstr "unknown"))),
         .jstr (pyStr (jget node "api_port" (.jstr "unknown"))),
         .jstr "unknown",
         .jstr (pyStr (jget node "status" (.jstr "unknown")))] (.jnum 1) ∈
        (collectNodesMetrics st nodes).node_address) ∧
    (∀ nodes node, node ∈ nodes → lookupKey node "status" = none →
      Sample.mk
        [.jstr (pyStr (jget node "name" (.jstr "unknown"))),
         .jstr (pyStr (jget node "address" (.jstr "unknown"))),
         .jstr (pyStr (jget node "port" (.jstr "unknown"))),
         .jstr (pyStr (jget node "api_port" (.jstr "unknown"))),
         .jstr (pyStr (jget node "xray_version" (.jstr "unknown"))),
         .jstr "unknown"] (.jnum 1) ∈
        (collectNodesMetrics st nodes).node_address) ∧
    (∀ us usage, usage ∈ us → lookupKey usage "node_name" = none →
      Sample.mk [.jstr "unknown"] (jget usage "uplink" (.jnum 0)) ∈
        (collectNodesUsageMetrics st (some us)).node_uplink ∧
      Sample.mk [.jstr "unknown"] (jget usage "downlink" (.jnum 0)) ∈
        (collectNodesUsageMetrics st (some us)).node_downlink) ∧
    (∀ us usage, usage ∈ us → lookupKey usage "uplink" = none →
      Sample.mk [jget usage "node_name" (.jstr "unknown")] (.jnum 0) ∈
        (collectNodesUsageMetrics st (some us)).node_uplink) ∧
    (∀ us usage, usage ∈ us → lookupKey usage "downlink" = none →
      Sample.mk [jget usage "node_name" (.jstr "unknown")] (.jnum 0) ∈
        (collectNodesUsageMetrics st (some us)).node_downlink) ∧
    (∀ system_data, lookupKey system_data "mem_total" = none →
      Sample.mk [] (.jnum 0) ∈
        (collectSystemMetrics st system_data).system_mem_total) ∧
    (∀ system_data, lookupKey system_data "mem_used" = none →
      Sample.mk [] (.jnum 0) ∈
        (collectSystemMetrics st system_data).system_mem_used) ∧
    (∀ system_data, lookupKey system_data "cpu_usage" = none →
      Sample.mk [] (.jnum 0) ∈
        (collectSystemMetrics st system_data).system_cpu_usage) ∧
    (∀ system_data, lookupKey system_data "total_user" = none →
      Sample.mk [] (.jnum 0) ∈
        (collectSystemMetrics st system_data).system_total_users) ∧
    (∀ system_data, lookupKey system_data "users_active" = none →
      Sample.mk [] (.jnum 0) ∈
        (collectSystemMetrics st system_data).system_active_users) ∧
    (∀ system_data, lookupKey system_data "incoming_bandwidth" = none →
      Sample.mk [] (.jnum 0) ∈
        (collectSystemMetrics st system_data).system_incoming_bandwidth) ∧
    (∀ system_data, lookupKey system_data "outgoing_bandwidth" = none →
      Sample.mk [] (.jnum 0) ∈
        (collectSystemMetrics st system_data).system_outgoing_bandwidth) ∧
    (∀ core_data, lookupKey core_data "started" = none →
      collectCoreMetrics st core_data =
        .ok { st with core_started := st.core_started ++ [⟨[], .jnum 0⟩] }) ∧
    (∀ users user, user ∈ users → lookupKey user "username" = none →
      Sample.mk [.jstr "unknown"] (jget user "lifetime_used_traffic" (.jnum 0)) ∈
        (collectUsersMetrics st (some users)).user_traffic) ∧
    (∀ users user, user ∈ users → lookupKey user "lifetime_used_traffic" = none →
      Sample.mk [jget user "username" (.jstr "unknown")] (.jnum 0) ∈
        (collectUsersMetrics st (some users)).user_traffic) ∧
    (∀ nodes usages system_data core_data users_data,
      lookupKey core_data "started" = none →
      (collect st ⟨.ok nodes, .ok usages, .ok system_data, .ok core_data,
        .ok users_data⟩).err = none) := by
  refine ⟨?_, ?_, ?_, ?_, ?_, ?_, ?_, ?_, ?_, ?_, ?_, ?_, ?_, ?_, ?_, ?_, ?_,
    ?_, ?_, ?_, ?_, ?_⟩
  · intro nodes node hmem habs
    simp only [collectNodesMetrics, List.mem_append, List.mem_map]
    exact Or.inr ⟨node, hmem, by simp [jget_of_absent habs]⟩
  · intro nodes node hmem habs
    simp only [collectNodesMetrics, List.mem_append, List.mem_map]
    exact Or.inr ⟨node, hmem, by simp [jget_of_absent habs, pyStr]⟩
  · intro nodes node hmem habs
    simp only [collectNodesMetrics, List.mem_append, List.mem_map]
    exact Or.inr ⟨node, hmem, by simp [jget_of_absent habs]⟩
  · intro nodes node hmem habs
    simp only [collectNodesMetrics, List.mem_append, List.mem_map]
    exact Or.inr ⟨node, hmem, by simp [jget_of_absent habs, pyStr]⟩
  · intro nodes node hmem habs
    simp only [collectNodesMetrics, List.mem_append, List.mem_map]
    exact Or.inr ⟨node, hmem, by simp [jget_of_absent habs, pyStr]⟩
  · intro nodes node hmem habs
    simp only [collectNodesMetrics, List.mem_append, List.mem_map]
    exact Or.inr ⟨node, hmem, by simp [jget_of_absent habs, pyStr]⟩
  · intro nodes node hmem habs
    simp only [collectNodesMetrics, List.mem_append, List.mem_map]
    exact Or.inr ⟨node, hmem, by simp [jget_of_absent habs, pyStr]⟩
  · intro nodes node hmem habs
    simp only [collectNodesMetrics, List.mem_append, List.mem_map]
    exact Or.inr ⟨node, hmem, by simp [jget_of_absent habs, pyStr]⟩
  · intro us usage hmem habs
    constructor <;>
    · simp only [collectNodesUsageMetrics, Option.getD_some, List.mem_append,
        List.mem_map]
      exact Or.inr ⟨usage, hmem, by simp [jget_of_absent habs]⟩
  · intro us usage hmem habs
    simp only [collectNodesUsageMetrics, Option.getD_some, List.mem_append,
      List.mem_map]
    exact Or.inr ⟨usage, hmem, by simp [jget_of_absent habs]⟩
  · intro us usage hmem habs
    simp only [collectNodesUsageMetrics, Option.getD_some, List.mem_append,
      List.mem_map]
    exact Or.inr ⟨usage, hmem, by simp [jget_of_absent habs]⟩
  · intro system_data habs
    simp [collectSystemMetrics, jget_of_absent habs]
  · intro system_data habs
    simp [collectSystemMetrics, jget_of_absent habs]
  · intro system_data habs
    simp [collectSystemMetrics, jget_of_absent habs]
  · intro system_data habs
    simp [collectSystemMetrics, jget_of_absent habs]
  · intro system_data habs
    simp [collectSystemMetrics, jget_of_absent habs]
  · intro system_data habs
    simp [collectSystemMetrics, jget_of_absent habs]
  · intro system_data habs
    simp [collectSystemMetrics, jget_of_absent habs]
  · intro core_data habs
    simp [collectCoreMetrics, jget_of_absent habs, pyInt?]
  · intro users user hmem habs
    simp only [collectUsersMetrics, Option.getD_some, List.mem_append,
      List.mem_map]
    exact Or.inr ⟨user, hmem, by simp [jget_of_absent habs]⟩
  · intro users user hmem habs
    simp only [collectUsersMetrics, Option.getD_some, List.mem_append,
      List.mem_map]
    exact Or.inr ⟨user, hmem, by simp [jget_of_absent habs]⟩
  · intro nodes usages system_data core_data users_data habs
    simp [collect, collectCoreMetrics, jget_of_absent habs, pyInt?]

/-- C4 witness: records missing only some optional fields, inside larger
lists — a node carrying only `name` next to the fully-populated fixture
node, a system object with only `mem_total`, a user carrying only
`lifetime_used_traffic` next to the fixture user. -/
theorem missing_fields_default_witness :
    Sample.mk [jget nodeOnlyName "name" (.jstr "unknown")] (.jnum 0) ∈
      (collectNodesMetrics emptyMetrics
        [nodeN1, nodeOnlyName]).node_usage_coefficient ∧
    Sample.mk [] (.jnum 0) ∈
      (collectSystemMetrics emptyMetrics
        [("mem_total", .jnum 1000)]).system_cpu_usage ∧
    Sample.mk [.jstr "unknown"] (jget userNoName "lifetime_used_traffic" (.jnum 0)) ∈
      (collectUsersMetrics emptyMetrics (some [userAlice, userNoName])).user_traffic := by
  obtain ⟨-, -, h3, -, -, -, -, -, -, -, -, -, -, h14, -, -, -, -, -, h20, -, -⟩ :=
    missing_fields_default emptyMetrics
  exact ⟨h3 [nodeN1, nodeOnlyName] nodeOnlyName (by simp) (by decide),
         h14 [("mem_total", .jnum 1000)] (by decide),
         h20 [userAlice, userNoName] userNoName (by simp) (by decide)⟩

/-- C5: each `_fetch` issues exactly one GET request; on a transport error or
on a response with a non-2xx status it fails with the error carrying the
resource path and the underlying cause. -/
theorem fetch_fails_with_error_once (α : Type) (net : String → HttpOutcome α)
    (endpoint : String) :
    (fetchResource net endpoint).requests = [endpoint] ∧
    (∀ msg, net endpoint = .transport msg →
      (fetchResource net endpoint).result = .error ⟨endpoint, msg⟩) ∧
    (∀ status body, net endpoint = .resp status body →
      ¬(200 ≤ status ∧ status < 300) →
      (fetchResource net endpoint).result =
        .error ⟨endpoint, statusErrMsg status⟩) := by
  refine ⟨rfl, ?_, ?_⟩
  · intro msg h
    simp [fetchResource, h]
  · intro status body h hs
    simp only [fetchResource, h]
    rw [if_neg hs]

/-- C5 witness: a 404 on `/nodes`. -/
theorem fetch_fails_with_error_once_witness :
    (fetchResource (fun _ => HttpOutcome.resp 404 (0 : Nat)) "/nodes").requests =
      ["/nodes"] ∧
    (fetchResource (fun _ => HttpOutcome.resp 404 (0 : Nat)) "/nodes").result =
      .error ⟨"/nodes", statusErrMsg 404⟩ :=
  ⟨(fetch_fails_with_error_once Nat (fun _ => HttpOutcome.resp 404 0) "/nodes").1,
   (fetch_fails_with_error_once Nat (fun _ => HttpOutcome.resp 404 0) "/nodes").2.2
      404 0 rfl (by decide)⟩

/-- The startup credential exchange fails: `post` raised an HTTP error, or
the response body has no `access_token` field. -/
def tokenExchangeFails : TokenOutcome → Prop
  | .httpError _ => True
  | .resp body => lookupKey body "access_token" = none

/-- C6: if the credential exchange fails (HTTP failure from `post`, or token
field absent from the body), startup returns an error and never a running
server — so no state producing a successful `/metrics` response is ever
reached. -/
theorem startup_auth_failure_fatal (out : TokenOutcome)
    (h : tokenExchangeFails out) :
    (∃ e, startServer out = .error e) ∧
    ∀ srv : ServerState, startServer out ≠ .ok srv := by
  cases out with
  | httpError msg =>
    exact ⟨⟨msg, rfl⟩, fun srv hh => by simp [startServer, getToken] at hh⟩
  | resp body =>
    simp only [tokenExchangeFails] at h
    constructor
    · exact ⟨"KeyError: access_token", by simp [startServer, getToken, h]⟩
    · intro srv hh
      simp [startServer, getToken, h] at hh

/-- C6 witness: a connection failure during the token exchange. -/
theorem startup_auth_failure_fatal_witness :
    (∃ e, startServer (.httpError "connection refused") = .error e) ∧
    ∀ srv : ServerState,
      startServer (.httpError "connection refused") ≠ .ok srv :=
  startup_auth_failure_fatal (.httpError "connection refused") True.intro

/-- C7: the endpoints `collect` fetches always form a prefix of the fixed
list `/nodes`, `/nodes/usage`, `/system`, `/core`, `/users`, in that order,
and a scrape that succeeds has fetched exactly the five, once each. -/
theorem collect_fetch_order (st : MetricsState) (up : Upstream) :
    (∃ k, (collect st up).log = endpoints.take k) ∧
    ((collect st up).err = none → (collect st up).log = endpoints) := by
  obtain ⟨nr, ur, sr, cr, usr⟩ := up
  cases nr with
  | error e => exact ⟨⟨1, rfl⟩, fun h => by simp [collect] at h⟩
  | ok nodes =>
    cases ur with
    | error e => exact ⟨⟨2, rfl⟩, fun h => by simp [collect] at h⟩
    | ok usages =>
      cases sr with
      | error e => exact ⟨⟨3, rfl⟩, fun h => by simp [collect] at h⟩
      | ok system_data =>
        cases cr with
        | error e => exact ⟨⟨4, rfl⟩, fun h => by simp [collect] at h⟩
        | ok core_data =>
          cases hc : collectCoreMetrics
              (collectSystemMetrics
                (collectNodesUsageMetrics (collectNodesMetrics st nodes) usages)
                system_data) core_data with
          | error e =>
            exact ⟨⟨4, by simp [collect, hc, endpoints]⟩,
              fun h => by simp [collect, hc] at h⟩
          | ok st4 =>
            cases usr with
            | error e =>
              exact ⟨⟨5, by simp [collect, hc, endpoints]⟩,
                fun h => by simp [collect, hc] at h⟩
            | ok users_data =>
              exact ⟨⟨5, by simp [collect, hc, endpoints]⟩,
                fun _ => by simp [collect, hc, endpoints]⟩

/-- C7 witness: a successful scrape fetches exactly the five endpoints. -/
theorem collect_fetch_order_witness :
    (collect emptyMetrics emptyOkUp).log = endpoints :=
  (collect_fetch_order emptyMetrics emptyOkUp).2 rfl

/-- C8: with the `"usages"` wrapper key absent the node-usage mapping emits
nothing and leaves the state as it was; with the `"users"` wrapper key
absent the users mapping emits only the `total_users` sample, with value 0.
Both are total — no error is possible. -/
theorem wrapper_key_absent_defaults (st : MetricsState) :
    collectNodesUsageMetrics st none = st ∧
    collectUsersMetrics st none =
      { st with total_users := st.total_users ++ [⟨[], .jnum 0⟩] } := by
  constructor
  · simp [collectNodesUsageMetrics]
  · simp [collectUsersMetrics]

/-- C9: in one pass of the users mapping, the `total_users` sample appended
carries exactly the length of the user list, and exactly that many
`user_lifetime_used_traffic_bytes` samples are appended — for every list,
duplicated or defaulted usernames included. -/
theorem total_users_matches_emitted (st : MetricsState)
    (users_data : Option (List Obj)) :
    (collectUsersMetrics st users_data).total_users =
      st.total_users ++ [⟨[], .jnum ((users_data.getD []).length : Rat)⟩] ∧
    (collectUsersMetrics st users_data).user_traffic.length =
      st.user_traffic.length + (users_data.getD []).length := by
  constructor <;> simp [collectUsersMetrics]

/-- C10: `collect` is a pure function of the collector state and the five
fetch outcomes — equal inputs give equal results (fetch log, state and
error all included). -/
theorem collect_deterministic (st1 st2 : MetricsState) (up1 up2 : Upstream)
    (hst : st1 = st2) (hup : up1 = up2) :
    collect st1 up1 = collect st2 up2 := by
  rw [hst, hup]

/-- C10 witness: the fixture scrape, twice. -/
theorem collect_deterministic_witness :
    collect emptyMetrics fixtureUp = collect emptyMetrics fixtureUp :=
  collect_deterministic emptyMetrics emptyMetrics fixtureUp fixtureUp rfl rfl
